import Mathlib

/-
Verification of the GPROF-NN retrieval data-adaptation layer
(gprof_nn/retrieval.py and gprof_nn/data/training_data.py).

Each Python function relevant to the frozen claims is shallowly embedded
as an executable Lean definition.  Machine floats carrying a NaN
"missing" sentinel are modelled as `Option ℚ` (`none` = NaN); raw file
values are modelled as `ℚ`; Python exceptions are modelled with
`Except`/`Option`; numpy arrays are modelled as (nested) lists.
-/

set_option autoImplicit false

namespace GprofNN

/-! ### SpatialPadder: `calculate_padding_dimensions` (retrieval.py, lines 37-62)

The source computes `d = math.ceil(n / 32) * 32 - n`, `p_l = d // 2`,
`p_r = d - p_l` for the last dimension size `n` and for the
second-to-last dimension size `m`, and returns the tuple
`(p_l_n, p_r_n, p_l_m, p_r_m)`. -/

/-- `math.ceil(n / 32)` on exact (non-floating) arithmetic, in the
kernel-computable form `(n + 31) / 32`; `ceilDiv32_eq` proves that this
is the exact rational ceiling. -/
def ceilDiv32 (n : ℕ) : ℕ := (n + 31) / 32

/-- Left/right padding for one dimension of size `n`:
`d = ceil(n/32)*32 - n`, `(d // 2, d - d // 2)`. -/
def padAmounts (n : ℕ) : ℕ × ℕ :=
  let d := ceilDiv32 n * 32 - n
  (d / 2, d - d / 2)

/-- `calculate_padding_dimensions` for a tensor whose second-to-last
dimension (scans) has size `m` and last dimension (pixels) has size `n`.
Returns `(p_l_n, p_r_n, p_l_m, p_r_m)` exactly as the source does. -/
def calculate_padding_dimensions (m n : ℕ) : ℕ × ℕ × ℕ × ℕ :=
  let pn := padAmounts n
  let pm := padAmounts m
  (pn.1, pn.2, pm.1, pm.2)

/-! ### Edge-replication padding (`torch.nn.functional.pad`, mode="replicate")

`F.pad(x, (a, b, c, d), mode="replicate")` pads the last dimension by
`a` (left) and `b` (right) copies of the edge values and the
second-to-last dimension by `c`/`d` copies of the edge rows. -/

/-- Pad a single dimension by `l` copies of the first element and `r`
copies of the last element (edge replication). -/
def edgePad {α : Type} (l r : ℕ) (xs : List α) : List α :=
  match xs.head?, xs.getLast? with
  | some a, some b => List.replicate l a ++ xs ++ List.replicate r b
  | _, _ => []

/-- 2-dimensional replicate padding of a scans × pixels grid with the
padding tuple `(pln, prn, plm, prm)` from `calculate_padding_dimensions`:
the last dimension (pixels, inner lists) is padded by `(pln, prn)`, the
second-to-last dimension (scans, outer list) by `(plm, prm)`. -/
def pad2d {α : Type} (p : ℕ × ℕ × ℕ × ℕ) (g : List (List α)) : List (List α) :=
  edgePad p.2.2.1 p.2.2.2 (g.map (edgePad p.1 p.2.1))

/-- Python slice `xs[a : -b]` for `a, b ≥ 0`.  Crucially, when `b = 0`
the Python expression is `xs[a : 0]`, which is the EMPTY list (Python
`-0 == 0`), not `xs[a:]`. -/
def pySlice {α : Type} (a b : ℕ) (xs : List α) : List α :=
  if b = 0 then [] else (xs.take (xs.length - b)).drop a

/-- Crop performed by `NetcdfLoader2D.finalize` (retrieval.py, lines
631-644): `scans: slice(padding[0], -padding[1])`,
`pixels: slice(padding[2], -padding[3])`.  Note that `padding[0:2]` are
the PIXEL padding amounts and `padding[2:4]` the SCAN padding amounts,
so the offsets are applied to the transposed axes. -/
def netcdf2dCrop {α : Type} (p : ℕ × ℕ × ℕ × ℕ) (g : List (List α)) : List (List α) :=
  (pySlice p.1 p.2.1 g).map (pySlice p.2.2.1 p.2.2.2)

/-- Crop performed by `PreprocessorLoader2D.finalize` (retrieval.py,
lines 850-864): `scans: slice(padding[2], -padding[3])`,
`pixels: slice(padding[0], -padding[1])`. -/
def pp2dCrop {α : Type} (p : ℕ × ℕ × ℕ × ℕ) (g : List (List α)) : List (List α) :=
  (pySlice p.2.2.1 p.2.2.2 g).map (pySlice p.1 p.2.1)

/-- Pad (as in `NetcdfLoader2D.__getitem__`) and then crop (as in
`NetcdfLoader2D.finalize`) a scans × pixels grid, using the padding
tuple that `_load_data` computes once from the grid's shape. -/
def roundTripNetcdf2d {α : Type} (g : List (List α)) : List (List α) :=
  let p := calculate_padding_dimensions g.length (g.headD []).length
  netcdf2dCrop p (pad2d p g)

/-- Pad (as in `PreprocessorLoader2D.__getitem__`) and then crop (as in
`PreprocessorLoader2D.finalize`). -/
def roundTripPp2d {α : Type} (g : List (List α)) : List (List α) :=
  let p := calculate_padding_dimensions g.length (g.headD []).length
  pp2dCrop p (pad2d p g)

/-- Concrete `m × n` test grid with distinct entries `i * n + j`. -/
def grid (m n : ℕ) : List (List ℕ) :=
  (List.range m).map (fun i => (List.range n).map (fun j => i * n + j))

/-! ### Helper lemmas -/

/-- Exact ceiling division agrees with the `(n + b - 1) / b` formula. -/
theorem ceil_div_nat_eq (n b : ℕ) (hb : 0 < b) :
    ⌈(n : ℚ) / (b : ℚ)⌉₊ = (n + b - 1) / b := by
  have hb' : (0 : ℚ) < (b : ℚ) := by exact_mod_cast hb
  have hqm := Nat.div_add_mod (n + b - 1) b
  have hmod := Nat.mod_lt (n + b - 1) hb
  apply le_antisymm
  · apply Nat.ceil_le.mpr
    rw [div_le_iff₀ hb']
    have h : n ≤ ((n + b - 1) / b) * b := by rw [Nat.mul_comm]; omega
    exact_mod_cast h
  · have hge : (n : ℚ) / b ≤ (⌈(n : ℚ) / b⌉₊ : ℚ) := Nat.le_ceil _
    rw [div_le_iff₀ hb'] at hge
    have hge' : n ≤ ⌈(n : ℚ) / b⌉₊ * b := by exact_mod_cast hge
    have hge'' : n + b - 1 ≤ b * ⌈(n : ℚ) / b⌉₊ + (b - 1) := by
      rw [Nat.mul_comm] at hge'
      omega
    have hdiv := Nat.div_le_div_right (c := b) hge''
    rwa [Nat.mul_add_div hb, Nat.div_eq_of_lt (by omega : b - 1 < b), Nat.add_zero] at hdiv

theorem ceilDiv32_eq (n : ℕ) : ceilDiv32 n = ⌈(n : ℚ) / 32⌉₊ := by
  have := ceil_div_nat_eq n 32 (by norm_num)
  simpa [ceilDiv32] using this.symm

/-! ### Claim C6 -/

/-- C6: `calculate_padding_dimensions` computes for each of the last two
dimensions of size `n` the defect `d = ceil(n/32)*32 - n` and the split
`pad_left = d / 2`, `pad_right = d - pad_left`; every padded dimension
is a multiple of 32; at a 221 × 221 scene it returns
`pad_left = 1`, `pad_right = 2` on each axis (padded size 224 × 224). -/
theorem claim_C6_padding_dimensions (m n : ℕ) :
    calculate_padding_dimensions m n =
      ((⌈(n : ℚ) / 32⌉₊ * 32 - n) / 2,
       (⌈(n : ℚ) / 32⌉₊ * 32 - n) - (⌈(n : ℚ) / 32⌉₊ * 32 - n) / 2,
       (⌈(m : ℚ) / 32⌉₊ * 32 - m) / 2,
       (⌈(m : ℚ) / 32⌉₊ * 32 - m) - (⌈(m : ℚ) / 32⌉₊ * 32 - m) / 2) ∧
    32 ∣ (n + (calculate_padding_dimensions m n).1 + (calculate_padding_dimensions m n).2.1) ∧
    32 ∣ (m + (calculate_padding_dimensions m n).2.2.1 + (calculate_padding_dimensions m n).2.2.2) ∧
    calculate_padding_dimensions 221 221 = (1, 2, 1, 2) := by
  have key : ∀ k : ℕ, k + (padAmounts k).1 + (padAmounts k).2 = ceilDiv32 k * 32 := by
    intro k
    have hq := Nat.div_add_mod (k + 31) 32
    have hm : (k + 31) % 32 < 32 := Nat.mod_lt _ (by norm_num)
    have hle : k ≤ ceilDiv32 k * 32 := by
      rw [ceilDiv32, Nat.mul_comm]
      omega
    simp only [padAmounts]
    omega
  refine ⟨by rw [← ceilDiv32_eq, ← ceilDiv32_eq]; rfl, ?_, ?_, ?_⟩
  · exact ⟨ceilDiv32 n, by have := key n; simp only [calculate_padding_dimensions]; omega⟩
  · exact ⟨ceilDiv32 m, by have := key m; simp only [calculate_padding_dimensions]; omega⟩
  · decide

/-! ### Claim C1 -/

/-- C1: the claim states that padding in the 2D loaders' `__getitem__`
followed by the crop in their `finalize` restores the original data for
every positive height and width, including multiples of 32 and
non-square shapes such as 33 × 31.  This theorem evaluates the embedded
code at those inputs: for a 32 × 32 grid both loaders crop with
`slice(0, -0)`, which in Python is the empty slice, so the result is
empty instead of the original grid; for a 33 × 31 grid
`NetcdfLoader2D.finalize` applies the pixel-padding offsets to the scans
axis (and vice versa) and does not restore the grid, while
`PreprocessorLoader2D` (which pairs the offsets with the right axes)
does. -/
theorem claim_C1_pad_crop_failure :
    roundTripNetcdf2d (grid 32 32) = [] ∧
    roundTripPp2d (grid 32 32) = [] ∧
    grid 32 32 ≠ [] ∧
    roundTripNetcdf2d (grid 33 31) ≠ grid 33 31 ∧
    roundTripPp2d (grid 33 31) = grid 33 31 := by
  refine ⟨by decide, by decide, by decide, ?_, by decide⟩
  intro h
  have hlen := congrArg List.length h
  revert hlen
  decide

/-! ### BatchIterator

`NetcdfLoader.__len__` (retrieval.py, line 440) returns
`math.ceil(n_samples / batch_size)`; `NetcdfLoader.__getitem__`
(lines 446-459) returns `self.input_data[i*batch_size : i*batch_size +
batch_size]` with NO bounds check (a Python slice silently clamps).
`PreprocessorLoader0D.__len__`/`__getitem__` (lines 685-743) use the
same formula with `n_scans`/`scans_per_batch` and an explicit
`min(i_start + scans_per_batch, n_scans)`.
`GPROF0DDataset.__len__` (training_data.py, lines 378-386) uses FLOOR
division and `__getitem__` (lines 343-376) raises `IndexError` for
`i >= len(self)`. -/

/-- `math.ceil(n_samples / batch_size)` in kernel-computable form;
`loaderNumBatches_eq_ceil` proves it is the exact ceiling. -/
def loaderNumBatches (n bs : ℕ) : ℕ := (n + bs - 1) / bs

/-- `i_start = i * batch_size`. -/
def batchStart (bs i : ℕ) : ℕ := i * bs

/-- `i_end = min(i_start + batch_size, n_samples)` — also the effective
end of the clamped Python slice `input_data[i_start : i_start + bs]`. -/
def batchEnd (n bs i : ℕ) : ℕ := min (i * bs + bs) n

/-- `NetcdfLoader.__getitem__`: the slice
`input_data[i*batch_size : i*batch_size + batch_size]`.  The method
body contains no `raise` and Python slicing is total, so the embedded
function always returns `Except.ok`. -/
def netcdfLoaderGetitem {α : Type} (bs i : ℕ) (xs : List α) : Except Unit (List α) :=
  Except.ok ((xs.take (i * bs + bs)).drop (i * bs))

/-- `PreprocessorLoader0D.__getitem__` (retrieval.py, lines 691-743),
reduced to its batch-extent behaviour: `i_start = i * scans_per_batch`
(unclamped), `i_end = min(i_start + scans_per_batch, n_scans)`,
`n = (i_end - i_start) * n_pixels` — all Python ints, so `n` is
NEGATIVE when `i_start > n_scans` — and `np.zeros((n, n_inputs))`
raises `ValueError` for a negative dimension (`Except.error`).
Otherwise the batch covers the scans `[i_start, i_end)`. -/
def ppLoader0dGetitem (nScans spb nPixels i : ℕ) : Except Unit (List ℕ) :=
  let iStart : ℤ := ((i * spb : ℕ) : ℤ)
  let iEnd : ℤ := min (iStart + (spb : ℤ)) (nScans : ℤ)
  let n : ℤ := (iEnd - iStart) * (nPixels : ℤ)
  if n < 0 then Except.error ()
  else Except.ok (((List.range nScans).drop (i * spb)).take (iEnd - iStart).toNat)

/-- `GPROF0DDataset.__len__`: `self.x.shape[0] // self.batch_size`
(floor division). -/
def gprof0dLen (nSamples bs : ℕ) : ℕ := nSamples / bs

/-- `GPROF0DDataset.__getitem__` for the list-free part of its contract:
`if i >= len(self): raise IndexError()` and otherwise the slice
`self.x[batch_size*i : batch_size*(i+1)]` (shuffling and target
transformation permute values of other batches and are irrelevant to
the indexing contract modelled here). -/
def gprof0dGetitem {α : Type} (nSamples bs i : ℕ) (xs : List α) : Except Unit (List α) :=
  if gprof0dLen nSamples bs ≤ i then Except.error ()
  else Except.ok ((xs.take (bs * (i + 1))).drop (bs * i))

theorem loaderNumBatches_eq_ceil (n bs : ℕ) (h : 0 < bs) :
    loaderNumBatches n bs = ⌈(n : ℚ) / (bs : ℚ)⌉₊ :=
  (ceil_div_nat_eq n bs h).symm

theorem lt_loaderNumBatches_iff (n bs i : ℕ) (hbs : 0 < bs) :
    i < loaderNumBatches n bs ↔ i * bs < n := by
  rw [loaderNumBatches, Nat.lt_iff_add_one_le, Nat.le_div_iff_mul_le hbs, Nat.succ_mul]
  omega

/-! ### Claim C2 -/

/-- C2: for `n_samples ≥ 1` and `batch_size ≥ 1` the loader length is
`ceil(n_samples/batch_size)`; every batch index `i < length` yields the
non-empty extent `[i*bs, min((i+1)*bs, n))` which never passes
`n_samples`; every sample index lies in exactly one batch extent (no
overlap, no gap); and the batch returned by `__getitem__` holds exactly
the samples of that extent. -/
theorem claim_C2_batch_coverage (n bs : ℕ) (hn : 1 ≤ n) (hbs : 1 ≤ bs) :
    loaderNumBatches n bs = ⌈(n : ℚ) / (bs : ℚ)⌉₊ ∧
    (∀ i, i < loaderNumBatches n bs →
      batchStart bs i < batchEnd n bs i ∧ batchEnd n bs i ≤ n) ∧
    (∀ k, k < n → ∃! i, i < loaderNumBatches n bs ∧
      batchStart bs i ≤ k ∧ k < batchEnd n bs i) ∧
    (∀ (xs : List ℚ), xs.length = n → ∀ i, ∃ batch,
      netcdfLoaderGetitem bs i xs = Except.ok batch ∧
      batch.length = batchEnd n bs i - batchStart bs i ∧
      ∀ j, j < batch.length → batch[j]? = xs[batchStart bs i + j]?) := by
  refine ⟨loaderNumBatches_eq_ceil n bs hbs, ?_, ?_, ?_⟩
  · intro i hi
    rw [lt_loaderNumBatches_iff n bs i hbs] at hi
    simp only [batchStart, batchEnd]
    omega
  · intro k hk
    refine ⟨k / bs, ⟨?_, ?_, ?_⟩, ?_⟩
    · rw [lt_loaderNumBatches_iff n bs _ hbs]
      calc k / bs * bs ≤ k := Nat.div_mul_le_self _ _
        _ < n := hk
    · exact Nat.div_mul_le_self _ _
    · have hdm := Nat.div_add_mod k bs
      have hmod := Nat.mod_lt k hbs
      have hcomm : k / bs * bs = bs * (k / bs) := Nat.mul_comm _ _
      simp only [batchEnd]
      omega
    · intro j hj
      obtain ⟨hjlt, hjs, hje⟩ := hj
      simp only [batchStart, batchEnd] at hjs hje
      have hsucc : (j + 1) * bs = j * bs + bs := Nat.succ_mul j bs
      exact (Nat.div_eq_of_lt_le hjs (by omega)).symm
  · intro xs hxs i
    refine ⟨(xs.take (i * bs + bs)).drop (i * bs), rfl, ?_, ?_⟩
    · simp only [List.length_drop, List.length_take, batchEnd, batchStart, hxs]
    · intro j hj
      simp only [List.length_drop, List.length_take, hxs] at hj
      rw [List.getElem?_drop, List.getElem?_take]
      simp only [batchStart]
      rw [if_pos (by omega)]

/-- Witness for C2 at `n_samples = 10`, `batch_size = 4` (the spec's
small-NetCDF scenario: batches of size 4, 4, 2). -/
theorem claim_C2_witness :
    (1 ≤ 10) ∧ (1 ≤ 4) ∧
    loaderNumBatches 10 4 = ⌈(10 : ℚ) / (4 : ℚ)⌉₊ ∧
    (∃! i, i < loaderNumBatches 10 4 ∧ batchStart 4 i ≤ 9 ∧ 9 < batchEnd 10 4 i) ∧
    (∃ batch, netcdfLoaderGetitem 4 2 ([0, 1, 2, 3, 4, 5, 6, 7, 8, 9] : List ℚ) =
        Except.ok batch ∧ batch.length = batchEnd 10 4 2 - batchStart 4 2 ∧
      ∀ j, j < batch.length → batch[j]? = ([0, 1, 2, 3, 4, 5, 6, 7, 8, 9] : List ℚ)[batchStart 4 2 + j]?) := by
  have h := claim_C2_batch_coverage 10 4 (by decide) (by decide)
  exact ⟨by decide, by decide, h.1, h.2.2.1 9 (by decide), h.2.2.2 _ (by decide) 2⟩

/-! ### Claim C7 -/

/-- C7 counterexample: for `NetcdfLoader` with `n_samples = 3`,
`batch_size = 2`, the length is 2, yet `__getitem__(2)` returns an
(empty) tensor via `Except.ok` instead of failing with an
`IndexError`-equivalent — the method performs no bounds check and the
Python slice clamps silently. -/
theorem claim_C7_counterexample :
    loaderNumBatches 3 2 = 2 ∧
    netcdfLoaderGetitem 2 2 ([10, 20, 30] : List ℚ) = Except.ok [] ∧
    (Except.ok ([] : List ℚ) : Except Unit (List ℚ)) ≠ Except.error () := by
  refine ⟨by decide, rfl, ?_⟩
  intro h
  exact Except.noConfusion h

/-- C7 amended: `GPROF0DDataset.__getitem__` fails with `IndexError`
for every index `i ≥ len(self)`; `NetcdfLoader.__getitem__` performs no
bounds check and instead returns an empty batch for every
`i ≥ length()`; `PreprocessorLoader0D.__getitem__` performs no bounds
check either, and for `i ≥ length()` (which forces
`i * scans_per_batch ≥ n_scans`) it fails with a `ValueError` from
`np.zeros` — a negative sample count — whenever
`i * scans_per_batch > n_scans`, while in the remaining boundary case
`i * scans_per_batch = n_scans` (only possible at `i = length()` with
`scans_per_batch` dividing `n_scans`) it returns an empty batch. -/
theorem claim_C7_amended :
    (∀ (nSamples bs i : ℕ) (xs : List ℚ), gprof0dLen nSamples bs ≤ i →
      gprof0dGetitem nSamples bs i xs = Except.error ()) ∧
    (∀ (nSamples bs i : ℕ) (xs : List ℚ), xs.length = nSamples → 1 ≤ bs →
      loaderNumBatches nSamples bs ≤ i →
      netcdfLoaderGetitem bs i xs = Except.ok []) ∧
    (∀ (nScans spb nPixels i : ℕ), 1 ≤ spb → 1 ≤ nPixels →
      loaderNumBatches nScans spb ≤ i →
      nScans ≤ i * spb ∧
      (nScans < i * spb → ppLoader0dGetitem nScans spb nPixels i = Except.error ()) ∧
      (nScans = i * spb → ppLoader0dGetitem nScans spb nPixels i = Except.ok [])) := by
  refine ⟨?_, ?_, ?_⟩
  · intro nSamples bs i xs h
    simp only [gprof0dGetitem, if_pos h]
  · intro nSamples bs i xs hxs hbs hlen
    have hge : nSamples ≤ i * bs := by
      by_contra hc
      exact absurd ((lt_loaderNumBatches_iff nSamples bs i hbs).mpr (by omega)) (by omega)
    simp only [netcdfLoaderGetitem, Except.ok.injEq]
    apply List.drop_eq_nil_of_le
    simp only [List.length_take, hxs]
    omega
  · intro nScans spb nPixels i hspb hnpix hlen
    have hge : nScans ≤ i * spb := by
      by_contra hc
      exact absurd ((lt_loaderNumBatches_iff nScans spb i hspb).mpr (by omega)) (by omega)
    refine ⟨hge, ?_, ?_⟩
    · intro hlt
      simp only [ppLoader0dGetitem]
      rw [if_pos]
      apply mul_neg_of_neg_of_pos
      · omega
      · exact_mod_cast hnpix
    · intro heq
      have h0 : min (((i * spb : ℕ) : ℤ) + (spb : ℤ)) ((nScans : ℕ) : ℤ) -
          ((i * spb : ℕ) : ℤ) = 0 := by omega
      simp only [ppLoader0dGetitem, h0]
      rw [if_neg (by simp)]
      simp

/-- Witness for C7 at concrete inputs: `GPROF0DDataset` with 5 samples
and batch size 2 has floor length 2 and errors at index 2;
`NetcdfLoader` with 3 samples and batch size 2 returns an empty batch
at index 3; `PreprocessorLoader0D` with 3 scans and 2 scans per batch
fails with a `ValueError` at index 2 (negative sample count), while
with 4 scans and 2 scans per batch it returns an empty batch at the
boundary index 2. -/
theorem claim_C7_witness :
    (gprof0dLen 5 2 ≤ 2 ∧ gprof0dGetitem 5 2 2 ([1, 2, 3, 4, 5] : List ℚ) = Except.error ()) ∧
    (([1, 2, 3] : List ℚ).length = 3 ∧ 1 ≤ 2 ∧ loaderNumBatches 3 2 ≤ 3 ∧
      netcdfLoaderGetitem 2 3 ([1, 2, 3] : List ℚ) = Except.ok []) ∧
    (loaderNumBatches 3 2 ≤ 2 ∧ 3 < 2 * 2 ∧
      ppLoader0dGetitem 3 2 5 2 = Except.error ()) ∧
    (loaderNumBatches 4 2 ≤ 2 ∧ 4 = 2 * 2 ∧
      ppLoader0dGetitem 4 2 5 2 = Except.ok []) :=
  ⟨⟨by decide, claim_C7_amended.1 5 2 2 _ (by decide)⟩,
   ⟨by decide, by decide, by decide,
    claim_C7_amended.2.1 3 2 3 _ (by decide) (by decide) (by decide)⟩,
   ⟨by decide, by decide,
    (claim_C7_amended.2.2 3 2 5 2 (by decide) (by decide) (by decide)).2.1 (by decide)⟩,
   ⟨by decide, by decide,
    (claim_C7_amended.2.2 4 2 5 2 (by decide) (by decide) (by decide)).2.2 (by decide)⟩⟩

/-! ### TensorCodec: one-hot encoding of categorical codes

`combine_input_data_2d` (retrieval.py, lines 86-103) builds the surface
one-hot by looping `for i in range(18): st_1h[st == i + 1, i] = 1.0`
and the airmass one-hot by `for i in range(4): am_1h[am == i, i] = 1.0`
followed by `am_1h[am < 0, 0] = 1.0`.  `PreprocessorLoader0D.__getitem__`
(lines 736-740) uses the same rules (after `at = np.maximum(at, 0)`).
`GPROF0DDataset._load_data` (training_data.py, lines 261-269) instead
writes `st_1h[np.arange(n), st - 1] = 1.0` — numpy NEGATIVE indexing, so
code 0 hits slot `-1`, i.e. slot 17, and codes outside `[-17, 19)` raise
— and builds a THREE-slot airmass group via
`am_1h[np.arange(n), np.maximum(am - 1, 0)] = 1.0`. -/

/-- Surface-type one-hot of `combine_input_data_2d`: 18 slots, slot `i`
is 1 exactly when the code equals `i + 1`. -/
def st_onehot_2d (c : ℤ) : List ℚ :=
  (List.range 18).map (fun (i : ℕ) => if c = (i : ℤ) + 1 then 1 else 0)

/-- Airmass one-hot of `combine_input_data_2d`: 4 slots, slot `i` set
when the code equals `i`, then slot 0 additionally set for negative
codes. -/
def am_onehot_2d (c : ℤ) : List ℚ :=
  (List.range 4).map (fun (i : ℕ) => if c = (i : ℤ) ∨ (i = 0 ∧ c < 0) then 1 else 0)

/-- Surface-type one-hot of `GPROF0DDataset._load_data`:
`st_1h[np.arange(n), st - 1] = 1.0` with numpy index semantics — an
index `k` with `-18 ≤ k < 0` addresses slot `18 + k` (i.e. `k mod 18`),
and an index outside `[-18, 18)` raises (`none`). -/
def st_onehot_0d (c : ℤ) : Option (List ℚ) :=
  if -18 ≤ c - 1 ∧ c - 1 < 18 then
    some ((List.range 18).map (fun (i : ℕ) => if (c - 1) % 18 = (i : ℤ) then 1 else 0))
  else none

/-- Airmass one-hot of `GPROF0DDataset._load_data`: THREE slots, slot
`max(c - 1, 0)` set; indices ≥ 3 (codes ≥ 4) raise (`none`). -/
def am_onehot_0d (c : ℤ) : Option (List ℚ) :=
  if max (c - 1) 0 < 3 then
    some ((List.range 3).map (fun (i : ℕ) => if max (c - 1) 0 = (i : ℤ) then 1 else 0))
  else none

/-- Indicator vector of length `len` with a single 1 in slot `j`. -/
def oneHot (len j : ℕ) : List ℚ :=
  (List.range len).map (fun i => if i = j then 1 else 0)

/-! ### Claim C4 -/

/-- C4 counterexample: the claim says that in every encoded record a
surface-type code 0 leaves the 18-slot surface group all-zero and that
the airmass group has 4 slots.  In `GPROF0DDataset._load_data`
(training_data.py, lines 261-269), surface code 0 sets slot 17 (numpy
negative index `-1`), and the airmass group has only 3 slots. -/
theorem claim_C4_counterexample :
    st_onehot_0d 0 ≠ some (List.replicate 18 (0 : ℚ)) ∧
    (st_onehot_0d 0).map (fun l => l.getD 17 0) = some 1 ∧
    (am_onehot_0d 0).map List.length = some 3 := by
  refine ⟨?_, by decide, by decide⟩
  intro h
  have := congrArg (Option.map (fun l => List.getD l 17 0)) h
  revert this
  decide

/-- C4 amended: in `combine_input_data_2d` (and equally in
`PreprocessorLoader0D.__getitem__`) the claimed rules hold: a surface
code `c ∈ [1, 18]` sets exactly slot `c-1` of the 18-slot group, any
other code leaves the group all-zero, an airmass code `c ∈ [0, 3]` sets
exactly slot `c` of the 4-slot group, and every negative airmass code
sets exactly slot 0.  In `GPROF0DDataset._load_data` however a surface
code `c ∈ [0, 18]` sets exactly slot `(c-1) mod 18` — so code 0 sets
slot 17, not the all-zero vector — code 19 raises, and the airmass
group has 3 slots of which slot `max(c-1, 0)` is set. -/
theorem claim_C4_one_hot :
    (∀ c : ℤ, 1 ≤ c → c ≤ 18 → st_onehot_2d c = oneHot 18 (c - 1).toNat) ∧
    (∀ c : ℤ, c < 1 ∨ 18 < c → st_onehot_2d c = List.replicate 18 0) ∧
    (∀ c : ℤ, 0 ≤ c → c ≤ 3 → am_onehot_2d c = oneHot 4 c.toNat) ∧
    (∀ c : ℤ, c < 0 → am_onehot_2d c = oneHot 4 0) ∧
    (∀ c : ℤ, 0 ≤ c → c ≤ 18 → st_onehot_0d c = some (oneHot 18 ((c - 1) % 18).toNat)) ∧
    st_onehot_0d 19 = none ∧
    (∀ c : ℤ, c ≤ 3 → am_onehot_0d c = some (oneHot 3 (max (c - 1) 0).toNat)) := by
  refine ⟨?_, ?_, ?_, ?_, ?_, by decide, ?_⟩
  · intro c h1 h2
    simp only [st_onehot_2d, oneHot]
    apply List.map_congr_left
    intro i hi
    rw [List.mem_range] at hi
    rw [if_congr (by omega : (c = (i : ℤ) + 1) ↔ (i = (c - 1).toNat)) rfl rfl]
  · intro c hc
    apply List.eq_replicate_iff.mpr
    refine ⟨by simp [st_onehot_2d], ?_⟩
    intro b hb
    simp only [st_onehot_2d, List.mem_map, List.mem_range] at hb
    obtain ⟨i, hi, hbi⟩ := hb
    rw [if_neg (by omega)] at hbi
    exact hbi.symm
  · intro c h0 h3
    simp only [am_onehot_2d, oneHot]
    apply List.map_congr_left
    intro i hi
    rw [List.mem_range] at hi
    rw [if_congr (by omega : (c = (i : ℤ) ∨ (i = 0 ∧ c < 0)) ↔ (i = c.toNat)) rfl rfl]
  · intro c hc
    simp only [am_onehot_2d, oneHot]
    apply List.map_congr_left
    intro i hi
    rw [List.mem_range] at hi
    rw [if_congr (by omega : (c = (i : ℤ) ∨ (i = 0 ∧ c < 0)) ↔ (i = 0)) rfl rfl]
  · intro c h0 h18
    rw [st_onehot_0d, if_pos (by omega)]
    simp only [oneHot]
    refine congrArg some (List.map_congr_left ?_)
    intro i hi
    rw [List.mem_range] at hi
    rw [if_congr (by omega : ((c - 1) % 18 = (i : ℤ)) ↔ (i = ((c - 1) % 18).toNat)) rfl rfl]
  · intro c hc
    rw [am_onehot_0d, if_pos (by omega)]
    simp only [oneHot]
    refine congrArg some (List.map_congr_left ?_)
    intro i hi
    rw [List.mem_range] at hi
    rw [if_congr (by omega : (max (c - 1) 0 = (i : ℤ)) ↔ (i = (max (c - 1) 0).toNat)) rfl rfl]

/-- Witness for C4 at concrete codes: surface code 5 sets slot 4,
surface code 19 in the 2D encoder gives all-zero, airmass code 2 sets
slot 2, airmass code −2 sets slot 0, and in the training-data encoder
surface code 7 sets slot 6 while airmass code −1 sets slot 0 of the
3-slot group. -/
theorem claim_C4_witness :
    ((1 : ℤ) ≤ 5 ∧ (5 : ℤ) ≤ 18 ∧ st_onehot_2d 5 = oneHot 18 ((5 : ℤ) - 1).toNat) ∧
    st_onehot_2d 19 = List.replicate 18 0 ∧
    am_onehot_2d 2 = oneHot 4 (2 : ℤ).toNat ∧
    am_onehot_2d (-2) = oneHot 4 0 ∧
    st_onehot_0d 7 = some (oneHot 18 (((7 : ℤ) - 1) % 18).toNat) ∧
    am_onehot_0d (-1) = some (oneHot 3 (max ((-1 : ℤ) - 1) 0).toNat) :=
  ⟨⟨by decide, by decide, claim_C4_one_hot.1 5 (by decide) (by decide)⟩,
   claim_C4_one_hot.2.1 19 (Or.inr (by decide)),
   claim_C4_one_hot.2.2.1 2 (by decide) (by decide),
   claim_C4_one_hot.2.2.2.1 (-2) (by decide),
   claim_C4_one_hot.2.2.2.2.1 7 (by decide) (by decide),
   claim_C4_one_hot.2.2.2.2.2.2 (-1) (by decide)⟩

/-! ### Missing-value handling

Brightness-temperature masking at encode time:
`combine_input_data_2d` (retrieval.py, lines 79-81) sets
`bts[(bts > 500.0) + (bts < 0.0)] = np.nan`;
`GPROF0DDataset._load_data` (training_data.py, lines 246-249) does the
same; `PreprocessorLoader0D.__getitem__` (retrieval.py, lines 721-722)
only sets `x[:, :n_chans][x[:, :n_chans] < 0] = np.nan`, leaving values
above 500 untouched.

Missing-data propagation at finalize time:
`PreprocessorLoader0D.finalize` (lines 769-773) computes
`invalid = np.all(tbs < 0, axis=-1)` from the raw brightness
temperatures and sets `data[v].data[invalid] = np.nan` for every
`v in ALL_TARGETS` present in the result;
`NetcdfLoader0D.finalize` (lines 553-581) masks with
`np.all(input_data[:, :n_chans] <= -1.5, axis=-1)` on the normalized
inputs, but ONLY in its `kind == "standard"` branch — for
`kind == "bin"` it returns `data` unchanged. -/

/-- `ALL_TARGETS` (training_data.py, lines 32-43). -/
def ALL_TARGETS : List String :=
  ["surface_precip", "convective_precip", "rain_water_path",
   "ice_water_path", "cloud_water_path", "total_column_water_vapor",
   "rain_water_content", "cloud_water_content", "snow_water_content",
   "latent_heat"]

/-- One row of `np.all(tbs < 0, axis=-1)`. -/
def ppObsInvalid (obs : List ℚ) : Bool := obs.all (fun v => decide (v < 0))

/-- The masking `data[v].data[invalid] = np.nan` of
`PreprocessorLoader0D.finalize` applied to one target variable. -/
def ppFinalizeMask (tbs : List (List ℚ)) (preds : List (Option ℚ)) : List (Option ℚ) :=
  List.zipWith (fun obs p => if ppObsInvalid obs then none else p) tbs preds

/-- The full loop `for v in ALL_TARGETS: if v in data.variables: ...` of
`PreprocessorLoader0D.finalize` over a result dataset modelled as an
association list from variable name to value array. -/
def ppFinalizeMaskAll (tbs : List (List ℚ))
    (data : List (String × List (Option ℚ))) : List (String × List (Option ℚ)) :=
  data.map (fun kv => if kv.1 ∈ ALL_TARGETS then (kv.1, ppFinalizeMask tbs kv.2) else kv)

/-- The two input kinds auto-detected by `NetcdfLoader0D.__init__`. -/
inductive NcKind : Type
  | standard : NcKind
  | bin : NcKind

/-- One row of `np.all(input_data[:, :n_chans] <= -1.5, axis=-1)`. -/
def ncObsInvalid (nChans : ℕ) (row : List ℚ) : Bool :=
  (row.take nChans).all (fun v => decide (v ≤ -3 / 2))

/-- The missing-value masking of `NetcdfLoader0D.finalize` applied to
one retrieved target variable: in the `standard` kind each observation
whose first `n_chans` (normalized) inputs are all ≤ −1.5 is set to NaN;
in the `bin` kind `finalize` returns the data unchanged — there is no
masking at all. -/
def netcdf0dFinalizeMask (kind : NcKind) (nChans : ℕ) (inputData : List (List ℚ))
    (preds : List (Option ℚ)) : List (Option ℚ) :=
  match kind with
  | NcKind.standard =>
      List.zipWith (fun row p => if ncObsInvalid nChans row then none else p) inputData preds
  | NcKind.bin => preds

theorem zipWith_getElem?_some {α β γ : Type} (f : α → β → γ) :
    ∀ (as : List α) (bs : List β) (i : ℕ) (a : α) (b : β),
      as[i]? = some a → bs[i]? = some b →
      (List.zipWith f as bs)[i]? = some (f a b) := by
  intro as
  induction as with
  | nil => intro bs i a b ha _; simp at ha
  | cons x xs ih =>
    intro bs i a b ha hb
    cases bs with
    | nil => simp at hb
    | cons y ys =>
      cases i with
      | zero =>
        simp only [List.getElem?_cons_zero, Option.some.injEq] at ha hb
        simp [List.zipWith_cons_cons, ha, hb]
      | succ n =>
        simp only [List.getElem?_cons_succ] at ha hb
        simpa [List.zipWith_cons_cons] using ih ys n a b ha hb

/-! ### Claim C3 -/

/-- C3 counterexample: an observation whose entire (normalized) channel
set lies below the validity threshold, fed through
`NetcdfLoader0D.finalize` with `kind = "bin"`: the model prediction
(`some 1`) survives unchanged instead of being set to missing — the
`bin` branch of `finalize` performs no masking, so the claim's "for
every loader variant" fails. -/
theorem claim_C3_counterexample :
    ncObsInvalid 2 [-2, -2] = true ∧
    netcdf0dFinalizeMask NcKind.bin 2 [[-2, -2]] [some 1] = [some 1] ∧
    ([some (1 : ℚ)] : List (Option ℚ)) ≠ [none] := by
  refine ⟨by norm_num [ncObsInvalid], rfl, by decide⟩

/-- C3 amended: in `PreprocessorLoader0D.finalize`, and in
`NetcdfLoader0D.finalize` when the input kind is `standard`, every
retrieved target value of an observation whose entire channel set is
invalid is set to missing, overriding the model output; for every
target variable of `ALL_TARGETS` in the result dataset; but
`NetcdfLoader0D.finalize` with kind `bin` returns the predictions
unchanged (no masking). -/
theorem claim_C3_missing_propagation :
    (∀ (tbs : List (List ℚ)) (preds : List (Option ℚ)) (i : ℕ) (obs : List ℚ) (p : Option ℚ),
      tbs[i]? = some obs → (∀ v ∈ obs, v < 0) → preds[i]? = some p →
      (ppFinalizeMask tbs preds)[i]? = some none) ∧
    (∀ (tbs : List (List ℚ)) (data : List (String × List (Option ℚ)))
       (i : ℕ) (obs : List ℚ),
      tbs[i]? = some obs → (∀ v ∈ obs, v < 0) →
      ∀ kv ∈ ppFinalizeMaskAll tbs data, kv.1 ∈ ALL_TARGETS → i < kv.2.length →
        kv.2[i]? = some none) ∧
    (∀ (nChans : ℕ) (inputData : List (List ℚ)) (preds : List (Option ℚ))
       (i : ℕ) (row : List ℚ) (p : Option ℚ),
      inputData[i]? = some row → (∀ v ∈ row.take nChans, v ≤ -3 / 2) →
      preds[i]? = some p →
      (netcdf0dFinalizeMask NcKind.standard nChans inputData preds)[i]? = some none) ∧
    (∀ (nChans : ℕ) (inputData : List (List ℚ)) (preds : List (Option ℚ)),
      netcdf0dFinalizeMask NcKind.bin nChans inputData preds = preds) := by
  have hpp : ∀ (tbs : List (List ℚ)) (preds : List (Option ℚ)) (i : ℕ) (obs : List ℚ) (p : Option ℚ),
      tbs[i]? = some obs → (∀ v ∈ obs, v < 0) → preds[i]? = some p →
      (ppFinalizeMask tbs preds)[i]? = some none := by
    intro tbs preds i obs p hobs hinv hp
    have hmask : ppObsInvalid obs = true := by
      rw [ppObsInvalid, List.all_eq_true]
      intro v hv
      exact decide_eq_true (hinv v hv)
    rw [ppFinalizeMask, zipWith_getElem?_some _ tbs preds i obs p hobs hp, hmask]
    simp
  refine ⟨hpp, ?_, ?_, ?_⟩
  · intro tbs data i obs hobs hinv kv hkv hmem hlen
    rw [ppFinalizeMaskAll, List.mem_map] at hkv
    obtain ⟨kv0, _, hkveq⟩ := hkv
    by_cases hc : kv0.1 ∈ ALL_TARGETS
    · rw [if_pos hc] at hkveq
      subst hkveq
      simp only at hlen ⊢
      have hi : i < kv0.2.length := by
        rw [ppFinalizeMask, List.length_zipWith] at hlen
        omega
      exact hpp tbs kv0.2 i obs _ hobs hinv (List.getElem?_eq_getElem hi)
    · rw [if_neg hc] at hkveq
      subst hkveq
      exact absurd hmem hc
  · intro nChans inputData preds i row p hrow hinv hp
    have hmask : ncObsInvalid nChans row = true := by
      rw [ncObsInvalid, List.all_eq_true]
      intro v hv
      exact decide_eq_true (hinv v hv)
    rw [netcdf0dFinalizeMask, zipWith_getElem?_some _ inputData preds i row p hrow hp, hmask]
    simp
  · intro nChans inputData preds
    rfl

/-- Witness for C3 at a concrete all-invalid observation: raw channels
`[-1, -5]` (all below 0) force the preprocessor-loader output to
missing; normalized inputs `[-2, -2]` (all ≤ −1.5) force the
standard-kind NetCDF-loader output to missing; the bin kind passes the
prediction through. -/
theorem claim_C3_witness :
    (([[-1, -5]] : List (List ℚ))[0]? = some ([-1, -5] : List ℚ) ∧
      (∀ v ∈ ([-1, -5] : List ℚ), v < 0) ∧
      (ppFinalizeMask [[-1, -5]] [some 3])[0]? = some none) ∧
    ((∀ v ∈ ([-2, -2] : List ℚ).take 2, v ≤ -3 / 2) ∧
      (netcdf0dFinalizeMask NcKind.standard 2 [[-2, -2]] [some 3])[0]? = some none) ∧
    netcdf0dFinalizeMask NcKind.bin 2 [[-2, -2]] [some 3] = [some 3] := by
  refine ⟨⟨rfl, by norm_num, ?_⟩, ⟨by norm_num, ?_⟩, ?_⟩
  · exact claim_C3_missing_propagation.1 [[-1, -5]] [some 3] 0 [-1, -5] (some 3)
      rfl (by norm_num) rfl
  · exact claim_C3_missing_propagation.2.2.1 2 [[-2, -2]] [some 3] 0 [-2, -2] (some 3)
      rfl (by norm_num) rfl
  · exact claim_C3_missing_propagation.2.2.2 2 [[-2, -2]] [some 3]

/-! ### Claim C8 -/

/-- Brightness-temperature encoding of `combine_input_data_2d`
(retrieval.py, lines 79-81): values outside `[0, 500]` become NaN. -/
def combine2dMaskTb (v : ℚ) : Option ℚ := if 500 < v ∨ v < 0 then none else some v

/-- Brightness-temperature encoding of `GPROF0DDataset._load_data`
(training_data.py, lines 246-249): values outside `[0, 500]` become
NaN. -/
def training0dMaskTb (v : ℚ) : Option ℚ := if 500 < v ∨ v < 0 then none else some v

/-- Brightness-temperature encoding of
`PreprocessorLoader0D.__getitem__` (retrieval.py, lines 721-722):
`x[:, :n_chans][x[:, :n_chans] < 0] = np.nan` — ONLY negative values
become NaN. -/
def preprocMaskTb (v : ℚ) : Option ℚ := if v < 0 then none else some v

/-- C8 counterexample: brightness temperature 600 lies outside
`[0, 500]`, yet `PreprocessorLoader0D.__getitem__` passes it through
unchanged into the feature vector — it is not mapped to the NaN
sentinel, so the claim's "in every loader that builds the input feature
vector" fails. -/
theorem claim_C8_counterexample :
    (500 : ℚ) < 600 ∧ preprocMaskTb 600 = some 600 ∧ preprocMaskTb 600 ≠ none := by
  refine ⟨by norm_num, ?_, ?_⟩
  · rw [preprocMaskTb, if_neg (by norm_num)]
  · rw [preprocMaskTb, if_neg (by norm_num)]
    exact Option.some_ne_none _

/-- C8 amended: `combine_input_data_2d` (both 2D loaders and the
simulator loader) and `GPROF0DDataset._load_data` map every brightness
temperature outside `[0, 500]` to the NaN sentinel and keep in-range
values unchanged (never clipped); `PreprocessorLoader0D.__getitem__`
maps only NEGATIVE values to NaN and passes every value ≥ 0 — including
values above 500 — through unchanged.  No encoder ever emits a value
different from its input (no clipping). -/
theorem claim_C8_tb_masking :
    (∀ v : ℚ, 500 < v ∨ v < 0 → combine2dMaskTb v = none) ∧
    (∀ v : ℚ, 0 ≤ v → v ≤ 500 → combine2dMaskTb v = some v) ∧
    (∀ v : ℚ, 500 < v ∨ v < 0 → training0dMaskTb v = none) ∧
    (∀ v : ℚ, v < 0 → preprocMaskTb v = none) ∧
    (∀ v : ℚ, 0 ≤ v → preprocMaskTb v = some v) ∧
    (∀ v : ℚ, combine2dMaskTb v = none ∨ combine2dMaskTb v = some v) ∧
    (∀ v : ℚ, preprocMaskTb v = none ∨ preprocMaskTb v = some v) := by
  refine ⟨?_, ?_, ?_, ?_, ?_, ?_, ?_⟩
  · intro v h
    rw [combine2dMaskTb, if_pos h]
  · intro v h0 h500
    rw [combine2dMaskTb, if_neg (by push_neg; constructor <;> linarith)]
  · intro v h
    rw [training0dMaskTb, if_pos h]
  · intro v h
    rw [preprocMaskTb, if_pos h]
  · intro v h
    rw [preprocMaskTb, if_neg (by linarith)]
  · intro v
    by_cases h : 500 < v ∨ v < 0
    · exact Or.inl (by rw [combine2dMaskTb, if_pos h])
    · exact Or.inr (by rw [combine2dMaskTb, if_neg h])
  · intro v
    by_cases h : v < 0
    · exact Or.inl (by rw [preprocMaskTb, if_pos h])
    · exact Or.inr (by rw [preprocMaskTb, if_neg h])

/-- Witness for C8 at concrete brightness temperatures 600, −1 and
250. -/
theorem claim_C8_witness :
    ((500 : ℚ) < 600 ∨ (600 : ℚ) < 0) ∧ combine2dMaskTb 600 = none ∧
    training0dMaskTb 600 = none ∧
    ((-1 : ℚ) < 0) ∧ preprocMaskTb (-1) = none ∧
    ((0 : ℚ) ≤ 250) ∧ ((250 : ℚ) ≤ 500) ∧ combine2dMaskTb 250 = some 250 ∧
    preprocMaskTb 600 = some 600 :=
  ⟨Or.inl (by norm_num),
   claim_C8_tb_masking.1 600 (Or.inl (by norm_num)),
   claim_C8_tb_masking.2.2.1 600 (Or.inl (by norm_num)),
   by norm_num,
   claim_C8_tb_masking.2.2.2.1 (-1) (by norm_num),
   by norm_num, by norm_num,
   claim_C8_tb_masking.2.1 250 (by norm_num) (by norm_num),
   claim_C8_tb_masking.2.2.2.2.1 600 (by norm_num)⟩

/-! ### Unstacking the flattened samples axis

`PreprocessorLoader0D.finalize` (retrieval.py, lines 760-764) rebuilds
the scan/pixel geometry with
`scans = np.arange(data.samples.size // self.n_pixels)`,
`pixels = np.arange(self.n_pixels)` and a row-major
`pd.MultiIndex.from_product`, where `self.n_pixels` was recorded from
the input file at load time.  `NetcdfLoader0D.finalize` (lines 563-569)
instead uses the HARD-CODED geometry
`samples = np.arange(data.samples.size // (221 * 221))`,
`scans = np.arange(221)`, `pixels = np.arange(221)` regardless of the
input file's actual scan/pixel counts.  `xarray`'s
`assign(samples=index).unstack` requires the index length to equal the
size of the samples axis, so a non-divisible sample count raises
(modelled as `none`). -/

/-- Row-major chunking of a flat list into `length / k` consecutive
rows of `k` elements (the effect of unstacking a
`MultiIndex.from_product` with trailing factor `k`). -/
def chunkList {α : Type} (k : ℕ) (xs : List α) : List (List α) :=
  (List.range (xs.length / k)).map (fun i => (xs.drop (i * k)).take k)

/-- The unstack of `PreprocessorLoader0D.finalize`, parameterised by the
pixel count recorded at load time. -/
def ppFinalizeUnstack {α : Type} (nPixels : ℕ) (xs : List α) : Option (List (List α)) :=
  if 0 < nPixels ∧ xs.length % nPixels = 0 then some (chunkList nPixels xs) else none

/-- The unstack of `NetcdfLoader0D.finalize` with its hard-coded
`(samples // (221*221), 221, 221)` geometry. -/
def netcdf0dUnstack {α : Type} (xs : List α) : Option (List (List (List α))) :=
  if xs.length % (221 * 221) = 0 then
    some ((chunkList (221 * 221) xs).map (chunkList 221))
  else none

theorem chunkList_length {α : Type} (k : ℕ) (xs : List α) :
    (chunkList k xs).length = xs.length / k := by
  simp [chunkList]

theorem chunkList_getElem? {α : Type} (k : ℕ) (xs : List α) (i : ℕ)
    (hi : i < xs.length / k) :
    (chunkList k xs)[i]? = some ((xs.drop (i * k)).take k) := by
  rw [chunkList, List.getElem?_map, List.getElem?_range hi]
  rfl

theorem take_drop_getElem? {α : Type} (xs : List α) (a k j : ℕ) (hj : j < k) :
    ((xs.drop a).take k)[j]? = xs[a + j]? := by
  rw [List.getElem?_take, if_pos hj, List.getElem?_drop]

/-! ### Claim C5 -/

/-- C5 counterexample: a NetCDF `standard` input with 1 sample, 2 scans
and 3 pixels flattens to 6 samples.  The claim requires `finalize` to
reconstruct the 1 × 2 × 3 geometry recorded from that input;
`NetcdfLoader0D.finalize` instead builds its MultiIndex from the
hard-coded 221 × 221 geometry (`6 // (221*221) = 0` sample entries,
which cannot be assigned to the 6-element samples axis), so the input
geometry is not reconstructed. -/
theorem claim_C5_counterexample :
    netcdf0dUnstack (List.range 6) = none ∧
    netcdf0dUnstack (List.range 6) ≠ some [[[0, 1, 2], [3, 4, 5]]] := by
  exact ⟨by decide, by decide⟩

/-- C5 amended: `PreprocessorLoader0D.finalize` unstacks the flattened
samples axis into `(samples // n_pixels)` scans of `n_pixels` pixels in
row-major order, using the pixel count recorded from the input at load
time, so that entry `(i, j)` is flat sample `i * n_pixels + j`;
`NetcdfLoader0D.finalize`, however, always unstacks into the fixed
`(samples // (221*221), 221, 221)` geometry — entry `(i, j, l)` is flat
sample `i*221*221 + j*221 + l` — regardless of the scan/pixel counts of
the input file, so only 221 × 221 inputs are restored to their own
geometry. -/
theorem claim_C5_unstack (α : Type) :
    (∀ (p s : ℕ) (xs : List α), 0 < p → xs.length = s * p →
      ∃ g, ppFinalizeUnstack p xs = some g ∧ g.length = s ∧
        ∀ i j, i < s → j < p →
          ∃ row, g[i]? = some row ∧ row[j]? = xs[i * p + j]?) ∧
    (∀ (k : ℕ) (xs : List α), xs.length = k * (221 * 221) →
      ∃ g, netcdf0dUnstack xs = some g ∧ g.length = k ∧
        ∀ i j l, i < k → j < 221 → l < 221 →
          ∃ plane row, g[i]? = some plane ∧ plane[j]? = some row ∧
            row[l]? = xs[i * (221 * 221) + j * 221 + l]?) := by
  constructor
  · intro p s xs hp hlen
    have hdvd : xs.length % p = 0 := by rw [hlen]; exact Nat.mul_mod_left s p
    have hq : xs.length / p = s := by rw [hlen]; exact Nat.mul_div_cancel s hp
    refine ⟨chunkList p xs, by rw [ppFinalizeUnstack, if_pos ⟨hp, hdvd⟩], ?_, ?_⟩
    · rw [chunkList_length, hq]
    · intro i j hi hj
      refine ⟨(xs.drop (i * p)).take p, chunkList_getElem? p xs i (by omega), ?_⟩
      exact take_drop_getElem? xs (i * p) p j hj
  · intro k xs hlen
    have hdvd : xs.length % (221 * 221) = 0 := by
      rw [hlen]
      exact Nat.mul_mod_left k (221 * 221)
    have hq : xs.length / (221 * 221) = k := by
      rw [hlen]
      exact Nat.mul_div_cancel k (by norm_num)
    refine ⟨(chunkList (221 * 221) xs).map (chunkList 221),
      by rw [netcdf0dUnstack, if_pos hdvd], ?_, ?_⟩
    · rw [List.length_map, chunkList_length, hq]
    · intro i j l hi hj hl
      have hmul : (i + 1) * (221 * 221) ≤ k * (221 * 221) :=
        Nat.mul_le_mul_right _ (by omega)
      have hsucc : (i + 1) * (221 * 221) = i * (221 * 221) + 221 * 221 :=
        Nat.succ_mul _ _
      have hmidlen : ((xs.drop (i * (221 * 221))).take (221 * 221)).length = 221 * 221 := by
        simp only [List.length_take, List.length_drop, hlen]
        omega
      refine ⟨chunkList 221 ((xs.drop (i * (221 * 221))).take (221 * 221)),
        (xs.drop (i * (221 * 221))).take (221 * 221) |>.drop (j * 221) |>.take 221,
        ?_, ?_, ?_⟩
      · rw [List.getElem?_map, chunkList_getElem? _ xs i (by omega)]
        rfl
      · exact chunkList_getElem? 221 _ j (by rw [hmidlen]; norm_num; exact hj)
      · rw [take_drop_getElem? _ _ _ _ hl,
          take_drop_getElem? _ _ _ _ (by omega : j * 221 + l < 221 * 221),
          (by omega : i * (221 * 221) + (j * 221 + l) = i * (221 * 221) + j * 221 + l)]

/-- Witness for C5: a 2 × 3 preprocessor file (6 flat samples,
`n_pixels = 3`) and a 221 × 221 NetCDF scene (48841 flat samples). -/
theorem claim_C5_witness :
    (0 < 3 ∧ (List.range 6).length = 2 * 3 ∧
      ∃ g, ppFinalizeUnstack 3 (List.range 6) = some g ∧ g.length = 2 ∧
        ∀ i j, i < 2 → j < 3 →
          ∃ row, g[i]? = some row ∧ row[j]? = (List.range 6)[i * 3 + j]?) ∧
    ((List.range (221 * 221)).length = 1 * (221 * 221) ∧
      ∃ g, netcdf0dUnstack (List.range (221 * 221)) = some g ∧ g.length = 1 ∧
        ∀ i j l, i < 1 → j < 221 → l < 221 →
          ∃ plane row, g[i]? = some plane ∧ plane[j]? = some row ∧
            row[l]? = (List.range (221 * 221))[i * (221 * 221) + j * 221 + l]?) := by
  refine ⟨⟨by decide, by decide, ?_⟩, ⟨by simp, ?_⟩⟩
  · exact (claim_C5_unstack ℕ).1 3 2 (List.range 6) (by decide) (by decide)
  · exact (claim_C5_unstack ℕ).2 1 (List.range (221 * 221)) (by simp)

/-! ### RetrievalDriver: L1C input handling

`RetrievalDriver._load_input_data` (retrieval.py, lines 194-229), L1C
branch:

    _, file = tempfile.mkstemp()
    try:
        run_preprocessor(...)                 # may raise
        input_data = self.model.preprocessor_class(file, self.normalizer)
    except subprocess.CalledProcessError:
        LOGGER.warning("... Skipping file %s.", self.input_file)
        return None
    finally:
        Path(file).unlink()

and `RetrievalDriver.run` (lines 293-304) starts with
`if input_data is None: return None`.  The external preprocessor is an
opaque collaborator; its three possible behaviours are enumerated, and
the `try/except/finally` control flow is embedded branch by branch. -/

/-- Outcome of the external preprocessor subprocess call
(`run_preprocessor` with `robust=False`): normal completion, a
`subprocess.CalledProcessError` (non-zero exit), or any other
exception. -/
inductive PreprocOutcome : Type
  | success : PreprocOutcome
  | calledProcessError : PreprocOutcome
  | otherError : PreprocOutcome

/-- Result of `_load_input_data` on an L1C file: the control-flow
outcome (`Except.error` = an exception propagates to the caller,
`Except.ok none` = returns `None`, `Except.ok (some _)` = input data
loaded), whether the temporary file was unlinked, and whether the
failure was logged. -/
structure L1CLoadResult : Type where
  outcome : Except Unit (Option Unit)
  tempFileRemoved : Bool
  failureReported : Bool

/-- `RetrievalDriver._load_input_data`, L1C branch, as a function of the
preprocessor outcome: on success the `try` block completes and
`finally` unlinks; on `CalledProcessError` the `except` handler logs a
warning and returns `None`, then `finally` unlinks; on any other
exception the exception propagates, but `finally` still unlinks. -/
def loadInputDataL1C : PreprocOutcome → L1CLoadResult
  | PreprocOutcome.success => ⟨Except.ok (some ()), true, false⟩
  | PreprocOutcome.calledProcessError => ⟨Except.ok none, true, true⟩
  | PreprocOutcome.otherError => ⟨Except.error (), true, false⟩

/-- `RetrievalDriver.run` for an L1C input: `None` from
`_load_input_data` is turned into an immediate `return None` (the file
is skipped); otherwise the retrieval proceeds. -/
def runDriverL1C (o : PreprocOutcome) : Except Unit (Option Unit) :=
  match (loadInputDataL1C o).outcome with
  | Except.error e => Except.error e
  | Except.ok none => Except.ok none
  | Except.ok (some _) => Except.ok (some ())

/-! ### Claim C9 -/

/-- C9: when the preprocessor subprocess exits non-zero while handling
an L1C input, `_load_input_data` does not raise — the failure is
reported and `None` is returned — and `run` then returns `None`,
skipping the file; and on every exit path (success, skip, or error) the
temporary file created for the HDF5-to-binary conversion is deleted. -/
theorem claim_C9_preprocessor_failure :
    (loadInputDataL1C PreprocOutcome.calledProcessError).outcome = Except.ok none ∧
    (loadInputDataL1C PreprocOutcome.calledProcessError).failureReported = true ∧
    runDriverL1C PreprocOutcome.calledProcessError = Except.ok none ∧
    (∀ o : PreprocOutcome, (loadInputDataL1C o).tempFileRemoved = true) := by
  refine ⟨rfl, rfl, rfl, ?_⟩
  intro o
  cases o with
  | success => rfl
  | calledProcessError => rfl
  | otherError => rfl

/-! ### SimulatorLoader: writing results back to source-0 samples

`SimulatorLoader._load_data` (retrieval.py, lines 923-937) restricts the
input to `dataset[{"samples": dataset.source == 0}]`, so the model
produces one result per source-0 sample, in increasing sample order.
`SimulatorLoader.finalize` (lines 952-1010) reloads the input dataset
afresh (`xr.load_dataset`), creates the two new output variables filled
with `np.nan`, and then runs

    index = 0
    for i in range(n_samples):
        if input_data.source[i] == 0:
            input_data[...][i] = data[...][index]
            index += 1

leaving every other variable of the input dataset untouched. -/

/-- The scatter loop of `SimulatorLoader.finalize` with its running
`index` counter: sample `i` receives the next unused result when its
source flag is 0 and keeps the NaN fill (`none`) otherwise. -/
def simScatterGo (results : List ℚ) : List ℤ → ℕ → List (Option ℚ)
  | [], _ => []
  | s :: rest, index =>
    if s = 0 then results[index]? :: simScatterGo results rest (index + 1)
    else none :: simScatterGo results rest index

/-- `SimulatorLoader.finalize`'s per-sample result assignment, starting
from `index = 0`. -/
def simFinalizeScatter (source : List ℤ) (results : List ℚ) : List (Option ℚ) :=
  simScatterGo results source 0

/-- `SimulatorLoader.finalize` as a whole: the freshly loaded input
variables pass through untouched (only the two new variables are
assigned), paired with the scattered per-sample results. -/
def simFinalizeFull {V : Type} (inputVars : V) (source : List ℤ) (results : List ℚ) :
    V × List (Option ℚ) :=
  (inputVars, simFinalizeScatter source results)

theorem simScatterGo_length (results : List ℚ) :
    ∀ (source : List ℤ) (index : ℕ),
      (simScatterGo results source index).length = source.length := by
  intro source
  induction source with
  | nil => intro index; rfl
  | cons s rest ih =>
    intro index
    by_cases hs : s = 0
    · simp [simScatterGo, hs, ih]
    · simp [simScatterGo, hs, ih]

theorem simScatterGo_spec (results : List ℚ) :
    ∀ (source : List ℤ) (index i : ℕ), i < source.length →
      (source[i]? = some 0 →
        (simScatterGo results source index)[i]? =
          some (results[index + (source.take i).countP (fun s => decide (s = 0))]?)) ∧
      (∀ s, source[i]? = some s → s ≠ 0 →
        (simScatterGo results source index)[i]? = some none) := by
  intro source
  induction source with
  | nil => intro index i hi; simp at hi
  | cons x rest ih =>
    intro index i hi
    cases i with
    | zero =>
      constructor
      · intro h0
        simp only [List.getElem?_cons_zero, Option.some.injEq] at h0
        simp [simScatterGo, h0]
      · intro s hs hne
        simp only [List.getElem?_cons_zero, Option.some.injEq] at hs
        subst hs
        simp [simScatterGo, hne]
    | succ n =>
      have hn : n < rest.length := by simpa using hi
      constructor
      · intro h0
        simp only [List.getElem?_cons_succ] at h0
        by_cases hx : x = 0
        · have := (ih (index + 1) n hn).1 h0
          simp only [simScatterGo, if_pos hx, List.getElem?_cons_succ]
          rw [this, List.take_succ_cons, List.countP_cons]
          refine congrArg some (congrArg _ ?_)
          simp [hx]
          omega
        · have := (ih index n hn).1 h0
          simp only [simScatterGo, if_neg hx, List.getElem?_cons_succ]
          rw [this, List.take_succ_cons, List.countP_cons]
          refine congrArg some (congrArg _ ?_)
          simp [hx]
      · intro s hs hne
        simp only [List.getElem?_cons_succ] at hs
        by_cases hx : x = 0
        · simpa [simScatterGo, if_pos hx] using (ih (index + 1) n hn).2 s hs hne
        · simpa [simScatterGo, if_neg hx] using (ih index n hn).2 s hs hne

/-! ### Claim C10 -/

/-- C10: with one model result per source-0 sample, `finalize` gives
sample `i` with `source[i] = 0` the `rank(i)`-th result, where
`rank(i)` counts the source-0 samples before `i` (increasing sample
order); the rank is always within range, so those samples hold an
actual value; every sample with a non-zero source flag keeps the NaN
fill; the output has one entry per input sample; and the pre-existing
variables of the freshly loaded input dataset are passed through
unchanged. -/
theorem claim_C10_simulator_subsetting {V : Type} (inputVars : V)
    (source : List ℤ) (results : List ℚ)
    (hres : results.length = source.countP (fun s => decide (s = 0))) :
    (simFinalizeFull inputVars source results).1 = inputVars ∧
    (simFinalizeScatter source results).length = source.length ∧
    (∀ (i : ℕ) (s : ℤ), source[i]? = some s → s ≠ 0 →
      (simFinalizeScatter source results)[i]? = some none) ∧
    (∀ (i : ℕ), source[i]? = some 0 →
      (source.take i).countP (fun s => decide (s = 0)) < results.length ∧
      ∃ r, (simFinalizeScatter source results)[i]? = some (some r)) := by
  refine ⟨rfl, simScatterGo_length results source 0, ?_, ?_⟩
  · intro i s hs hne
    have hi : i < source.length := by
      by_contra hc
      rw [List.getElem?_eq_none (by omega)] at hs
      exact Option.noConfusion hs
    exact (simScatterGo_spec results source 0 i hi).2 s hs hne
  · intro i h0
    have hi : i < source.length := by
      by_contra hc
      rw [List.getElem?_eq_none (by omega)] at h0
      exact Option.noConfusion h0
    have hrank : (source.take i).countP (fun s => decide (s = 0)) < results.length := by
      rw [hres]
      calc (source.take i).countP (fun s => decide (s = 0))
          < (source.take (i + 1)).countP (fun s => decide (s = 0)) := by
            rw [List.take_succ, List.countP_append]
            have : source[i]?.toList.countP (fun s => decide (s = 0)) = 1 := by
              rw [h0]
              rfl
            omega
        _ ≤ source.countP (fun s => decide (s = 0)) := by
            conv_rhs => rw [← List.take_append_drop (i + 1) source]
            rw [List.countP_append]
            omega
    have hval := (simScatterGo_spec results source 0 i hi).1 h0
    rw [Nat.zero_add] at hval
    refine ⟨hrank, results[(source.take i).countP (fun s => decide (s = 0))], ?_⟩
    show (simScatterGo results source 0)[i]? = _
    rw [hval, List.getElem?_eq_getElem hrank]

/-- Witness for C10 at the spec's scenario: source flags `[0, 1, 0, 1]`
and two model results `[5, 7]` — samples 0 and 2 receive values (5 and
7), samples 1 and 3 stay missing, and the passthrough component is
untouched. -/
theorem claim_C10_witness :
    (([5, 7] : List ℚ).length = ([0, 1, 0, 1] : List ℤ).countP (fun s => decide (s = 0))) ∧
    (simFinalizeFull (42 : ℕ) [0, 1, 0, 1] ([5, 7] : List ℚ)).1 = 42 ∧
    (simFinalizeScatter [0, 1, 0, 1] [5, 7])[1]? = some none ∧
    (∃ r, (simFinalizeScatter [0, 1, 0, 1] [5, 7])[2]? = some (some r)) ∧
    simFinalizeScatter [0, 1, 0, 1] [5, 7] = [some 5, none, some 7, none] := by
  have h := claim_C10_simulator_subsetting (42 : ℕ) [0, 1, 0, 1] ([5, 7] : List ℚ) (by decide)
  exact ⟨by decide, h.1, h.2.2.1 1 1 rfl (by decide), (h.2.2.2 2 rfl).2, by decide⟩

end GprofNN
